import Mathlib

/-!
Shallow embedding of the decide-rs stepper_motor component.

This file embeds the concurrency core of `src/components/stepper_motor/src/lib.rs`
in Lean 4 and proves/refutes the specification claims about it.

Modelling conventions:
* Machine integers (`usize`, `u64`) are modelled as `Nat`; where the Rust code can
  overflow, the two's-complement wrap of a 64-bit unsigned subtraction is made
  explicit as addition of `2 ^ 64 - 1` followed by `% 2 ^ 64` (release-profile
  semantics of `step - 1` on `usize`).
* Durations are modelled as `Nat` in a single abstract time unit; the comparison
  `Instant::now().duration_since(timer) < Duration::from_millis(t)` becomes a
  comparison of two `Nat`s.
* The motor thread's `while` bursts run for a number of iterations that is fixed by
  wall-clock time and the physical switch; the embedding takes that iteration count
  as an environment input `n` and models the loop *conditions* separately, exactly
  as written in the source.
* A Rust `unwrap()` panic is modelled as `Except.error ()`: the panicking execution
  context terminates and performs nothing further.
* GPIO writes (`set_values` on `motor_1_handle` / `motor_3_handle`), mutations of the
  `running` flag inside the `on_paired` mutex, `Condvar::notify_one`, and channel
  sends are recorded as explicit actions in a trace.
* The guard returned by `on_cvar.wait` at line 171 is bound to the underscore-prefixed
  name `_on_guard`, which (unlike a bare `_`) keeps the `MutexGuard` alive until the
  end of the loop iteration (line 211). The `on_lock.lock()` at line 204 is therefore
  a same-thread re-lock of a held `std::sync::Mutex` and does not return: the thread
  blocks forever. This non-completion is modelled by `PassResult.deadlocked` and by
  the `stuck` phase of the control state machine; the statements at lines 205-209
  (`running = false`, `notify_one`, the final publish) are unreachable.
-/

namespace StepperMotor

/-- The `proto::State` message `{switch, on, direction}` (wire payload for state). -/
structure StateMsg where
  switch : Bool
  «on» : Bool
  direction : Bool
deriving DecidableEq, Repr

/-- The `proto::Params` message `{timeout}` (u64 milliseconds). -/
structure Params where
  timeout : Nat
deriving DecidableEq, Repr

/-- The shared mutable state owned by `StepperMotor` (lib.rs lines 33-42):
`switch : Arc<AtomicBool>`, the `bool` inside the `on_paired : Arc<(Mutex<bool>, Condvar)>`
pair (called `running` here, as in the motor thread), `direction : Arc<AtomicBool>`,
and `timeout : Arc<Mutex<u64>>`. -/
structure ComponentState where
  switch : Bool
  running : Bool
  direction : Bool
  timeout : Nat
deriving DecidableEq, Repr

/-- Source `StepperMotor::new` (lib.rs lines 116-125): switch starts `true`, the `on_paired`
mutex starts `false`, direction starts `false`, timeout starts `500`. -/
def new : ComponentState :=
  { switch := true, running := false, direction := false, timeout := 500 }

/-- Source `StepperMotor::get_state` (lib.rs lines 320-328): reads the three flags. -/
def get_state (s : ComponentState) : StateMsg :=
  { switch := s.switch, «on» := s.running, direction := s.direction }

/-- Source `StepperMotor::get_parameters` (lib.rs lines 330-334). -/
def get_parameters (s : ComponentState) : Params :=
  { timeout := s.timeout }

/-- Source `StepperMotor::set_parameters` (lib.rs lines 315-318): overwrites the shared
`timeout` mutex contents with `params.timeout`. -/
def set_parameters (s : ComponentState) (params : Params) : ComponentState :=
  { s with timeout := params.timeout }

/-- Source `StepperMotor::change_state` (lib.rs lines 288-313): stores `state.switch` and
`state.direction` into the atomics, then under the `on_paired` lock sets the running
flag to `state.on` (notifying one waiter exactly when `state.on` is true), and spawns
an asynchronous task that publishes `state` itself on the state channel.
Returns (new shared state, whether `notify_one` was called, the published message). -/
def change_state (s : ComponentState) (state : StateMsg) : ComponentState × Bool × StateMsg :=
  let s1 := { s with switch := state.switch, direction := state.direction }
  if state.«on» then
    ({ s1 with running := true }, true, state)
  else
    ({ s1 with running := false }, false, state)

/-- Constant `NUM_HALF_STEPS` (lib.rs line 45). -/
def NUM_HALF_STEPS : Nat := 8

/-- Modulus of `usize` arithmetic on the 64-bit target. -/
def USIZE_MOD : Nat := 2 ^ 64

/-- Constant `ALL_OFF` (lib.rs line 46): the rest pattern written to one line group. -/
def ALL_OFF : Nat × Nat := (0, 0)

/-- Constant `HALF_STEPS` (lib.rs lines 47-56): the 8-entry half-step commutation table;
entry `i` is the pair (values for `motor_1_handle`, values for `motor_3_handle`). -/
def HALF_STEPS : Array ((Nat × Nat) × (Nat × Nat)) :=
  #[((0, 1), (1, 0)),
    ((0, 1), (0, 0)),
    ((0, 1), (0, 1)),
    ((0, 0), (0, 1)),
    ((1, 0), (0, 1)),
    ((1, 0), (0, 0)),
    ((1, 0), (1, 0)),
    ((0, 0), (1, 0))]

/-- Source `StepperMotor::run_motor` (lib.rs lines 57-80): advances the phase index and
returns the new index together with the `(handle1, handle3)` values written.
Forward (`direction = true`): `step = (step + 1) % NUM_HALF_STEPS`.
Backward (`direction = false`): `step = (step - 1) % NUM_HALF_STEPS` on `usize`,
whose release-profile semantics is a two's-complement wrap, made explicit here as
`(step + (USIZE_MOD - 1)) % USIZE_MOD` before the `% NUM_HALF_STEPS`. -/
def run_motor (step : Nat) (direction : Bool) : Nat × ((Nat × Nat) × (Nat × Nat)) :=
  if direction then
    let step1 := (step + 1) % NUM_HALF_STEPS
    (step1, HALF_STEPS.getD step1 ((0, 0), (0, 0)))
  else
    let step1 := ((step + (USIZE_MOD - 1)) % USIZE_MOD) % NUM_HALF_STEPS
    (step1, HALF_STEPS.getD step1 ((0, 0), (0, 0)))

/-- Observable actions of the motor thread. `write1`/`write3` are `set_values` calls on
`motor_1_handle`/`motor_3_handle`; `setRunning` is a write to the flag inside the
`on_paired` mutex; `notifyOne` is `on_cvar.notify_one()`; `publish` is a successful
`send_state` on the state channel. -/
inductive MotorAction where
  | write1 (v : Nat × Nat)
  | write3 (v : Nat × Nat)
  | setRunning (b : Bool)
  | notifyOne
  | publish (m : StateMsg)
deriving DecidableEq, Repr

/-- Source `StepperMotor::pause_motor` (lib.rs lines 81-90): writes the rest pattern `ALL_OFF`
once to each of the two line groups. -/
def pause_motor : List MotorAction :=
  [MotorAction.write1 ALL_OFF, MotorAction.write3 ALL_OFF]

/-- Status of the `state_sender` channel as seen by a blocking send. -/
inductive ChannelStatus where
  | active
  | closed
deriving DecidableEq, Repr

/-- Source `StepperMotor::send_state` (lib.rs lines 91-105): builds a `proto::State` message and
performs `block_on(sender.send(..)).unwrap()`. If the channel is closed the send
returns an error and the `unwrap()` panics the calling thread (`Except.error ()`). -/
def send_state (ch : ChannelStatus) (switch onv direction : Bool) : Except Unit StateMsg :=
  match ch with
  | ChannelStatus.active => Except.ok { switch := switch, «on» := onv, direction := direction }
  | ChannelStatus.closed => Except.error ()

/-- The two burst kinds of the stepping engine's state machine. -/
inductive BurstKind where
  | switchDriven
  | commandDriven
deriving DecidableEq, Repr

/-- The branch taken by the motor thread after the condition wait returns
(lib.rs lines 173-174): `let cape_pressed = switch.load(..); if cape_pressed {..} else {..}`.
The burst kind depends only on the `switch` atomic. -/
def burstKind (cape_pressed : Bool) : BurstKind :=
  if cape_pressed then BurstKind.switchDriven else BurstKind.commandDriven

/-- The inner stepping loop body repeated `n` times (lib.rs lines 182-186 and 198-202):
each iteration calls `run_motor` (which advances the index and writes both line groups)
and then sleeps `dt` microseconds. Returns the trace of writes and the final index. -/
def stepLoop : Nat → Nat → Bool → List MotorAction × Nat
  | 0, step, _ => ([], step)
  | Nat.succ n, step, d =>
    let r := run_motor step d
    let rest := stepLoop n r.1 d
    (MotorAction.write1 r.2.1 :: MotorAction.write3 r.2.2 :: rest.1, rest.2)

/-- Outcome of one pass of the motor thread's loop body, when no panic occurred:
`continued` — the iteration finished and control returned to the top of the loop;
`exited` — the `break` at lib.rs line 163 left the loop; `deadlocked` — the thread
blocked forever in the `on_lock.lock()` call at lib.rs line 204, a same-thread re-lock
of the mutex whose guard (bound to `_on_guard` at line 171) is still alive. Each
constructor carries the actions performed up to that point and the final phase index. -/
inductive PassResult where
  | continued (acts : List MotorAction) (step : Nat)
  | exited (acts : List MotorAction) (step : Nat)
  | deadlocked (acts : List MotorAction) (step : Nat)
deriving DecidableEq, Repr

/-- Actions performed during a pass, whatever its outcome. -/
def PassResult.acts : PassResult → List MotorAction
  | PassResult.continued a _ => a
  | PassResult.exited a _ => a
  | PassResult.deadlocked a _ => a

/-- One full pass of the motor thread's `'motor_main` loop (lib.rs lines 159-211), given:
* `ch` — the state channel's status,
* `sdDisconnected` — whether `sd_rx.try_recv()` observes `Disconnected` at the
  top-of-loop shutdown check (line 161),
* `_on_guard` — the value of the running flag returned by `on_cvar.wait` (line 171);
  the source binds it to `_on_guard` and never reads it,
* `sw`, `d` — the `switch` and `direction` atomics at their loads,
* `n` — the number of iterations the inner `while` loop performs (fixed by the elapsed
  wall-clock time, the shared timeout and the switch), `step` — the phase index.
Returns `Except.error ()` when an `unwrap()` panic killed the thread, otherwise a
`PassResult`. When not disconnected, the pass models the case in which the condition
wait returned (the blocking behaviour of the wait itself is modelled by `motorLoopStep`
below). The switch-driven branch (lines 174-191) completes its iteration without ever
touching `on_lock`. The command-driven branch (lines 192-210) publishes the burst-start
snapshot, runs the stepping loop, and then calls `on_lock.lock()` at line 204 while the
same thread still holds the guard `_on_guard` from line 171: the call never returns, so
the pass ends `deadlocked` and lines 205-209 (`running = false`, `notify_one`, the
burst-end publish) perform nothing. -/
def motorPass (ch : ChannelStatus) (sdDisconnected _on_guard sw d : Bool) (n step : Nat) :
    Except Unit PassResult :=
  if sdDisconnected then
    Except.ok (PassResult.exited pause_motor step)
  else
    match burstKind sw with
    | BurstKind.switchDriven => do
      let m1 ← send_state ch true true d
      let r := stepLoop n step d
      let m2 ← send_state ch true false d
      Except.ok (PassResult.continued
        (MotorAction.publish m1 :: r.1 ++ pause_motor ++ [MotorAction.publish m2]) r.2)
    | BurstKind.commandDriven => do
      let m1 ← send_state ch false true d
      let r := stepLoop n step d
      Except.ok (PassResult.deadlocked (MotorAction.publish m1 :: r.1) r.2)

/-- The action trace of a pass; empty when the thread panicked before acting
(the only panic sites, channel sends, precede every recorded action of their pass). -/
def passActions (ch : ChannelStatus) (sdDisconnected g sw d : Bool) (n step : Nat) :
    List MotorAction :=
  match motorPass ch sdDisconnected g sw d n step with
  | Except.ok r => r.acts
  | Except.error _ => []

/-- Control phases of the motor thread within `'motor_main` (lib.rs lines 159-211):
`atTop` — about to run the shutdown check of line 161; `parked` — blocked inside
`on_cvar.wait` (line 171); `burst` — executing a burst body; `stuck` — blocked forever
in the same-thread re-lock at line 204; `panicked` — killed by an `unwrap()` panic;
`exited` — after `break`. -/
inductive MotorPhase where
  | atTop
  | parked
  | burst
  | stuck
  | panicked
  | exited
deriving DecidableEq, Repr

/-- The motor thread's control state: its phase, whether the shutdown sender has been
dropped, whether a `notify_one` is currently waking the parked waiter, the value the
`switch` atomic will show at the burst's load (line 173), and whether the state channel
is closed (which makes the burst's first `send_state` panic). -/
structure MotorLoopState where
  phase : MotorPhase
  sdDisconnected : Bool
  pendingNotify : Bool
  switchEngaged : Bool
  channelClosed : Bool
deriving DecidableEq, Repr

/-- One guaranteed progress step of the motor thread's control state.
At `atTop`, a disconnected shutdown channel leads to `break` (`exited`), otherwise the
thread enters the condition wait (`parked`). A `parked` thread makes progress only when
a notification wakes it (the platform does not guarantee spurious wakeups, and the wait
is the only blocking point); it then runs the burst body. A burst on a closed channel
panics at its first publish; a switch-driven burst on an active channel completes and
returns to the top; a command-driven burst on an active channel reaches the re-lock at
line 204 and blocks there forever (`stuck`). -/
def motorLoopStep (s : MotorLoopState) : MotorLoopState :=
  match s.phase with
  | MotorPhase.atTop =>
    if s.sdDisconnected then { s with phase := MotorPhase.exited }
    else { s with phase := MotorPhase.parked }
  | MotorPhase.parked =>
    if s.pendingNotify then { s with phase := MotorPhase.burst, pendingNotify := false }
    else s
  | MotorPhase.burst =>
    if s.channelClosed then { s with phase := MotorPhase.panicked }
    else if s.switchEngaged then { s with phase := MotorPhase.atTop }
    else { s with phase := MotorPhase.stuck }
  | MotorPhase.stuck => s
  | MotorPhase.panicked => s
  | MotorPhase.exited => s

/-- Source `StepperMotor::shutdown` (lib.rs lines 336-343) as seen by the motor thread:
`switch_handle.abort()` and `drop(sd_tx)` disconnect the shutdown channel, then
`motor_handle.join()` waits for the thread. Nothing in the shutdown path touches
`on_cvar` or the running flag, so no notification is produced. -/
def shutdown (s : MotorLoopState) : MotorLoopState :=
  { s with sdDisconnected := true }

/-- The motor thread parked on the condition wait with no pending wake: the Idle state
(switch and channel fields at their fresh-component values). -/
def idleParked : MotorLoopState :=
  { phase := MotorPhase.parked, sdDisconnected := false, pendingNotify := false,
    switchEngaged := true, channelClosed := false }

/-- The `while` condition of a switch-driven burst (lib.rs line 182):
`(elapsed < timeout) | (switch engaged)`, evaluated afresh at every iteration.
Rust's `|` on `bool` has the same truth table as `||`. -/
def switch_loop_cond (elapsed timeoutNow : Nat) (engaged : Bool) : Bool :=
  decide (elapsed < timeoutNow) || engaged

/-- The `while` condition of a command-driven burst (lib.rs line 198):
`elapsed < *timeout.lock().unwrap()`, where the shared timeout mutex is re-read at
every evaluation of the condition. -/
def command_loop_cond (elapsed timeoutNow : Nat) : Bool :=
  decide (elapsed < timeoutNow)

/-- C1: the motor thread's wait (lib.rs line 171) binds the woken guard to `_on_guard`
and never reads it, so the engine does not recheck the running predicate: a wakeup with
the running flag false still starts a full burst (here a switch-driven one, publishing
a burst-start snapshot and writing the coils), and a whole pass of the loop is literally
independent of the running value handed back by the wait. This refutes the claim that a
burst runs only if the running flag is true. -/
theorem C1_wake_runs_burst_despite_running_false :
    MotorAction.publish { switch := true, «on» := true, direction := false } ∈
      passActions ChannelStatus.active false false true false 1 0 ∧
    MotorAction.write1 (0, 0) ∈ passActions ChannelStatus.active false false true false 1 0 ∧
    (∀ (ch : ChannelStatus) (sd g g' sw d : Bool) (n step : Nat),
      motorPass ch sd g sw d n step = motorPass ch sd g' sw d n step) := by
  refine ⟨by decide, by decide, ?_⟩
  intro ch sd g g' sw d n step
  rfl

/-- C2: `shutdown()` only drops the shutdown sender; it never notifies `on_cvar`. A motor
thread parked on the condition wait in Idle therefore receives no guaranteed wakeup: the
post-shutdown parked state is a fixpoint of the thread's progress relation and is not the
exited phase, so `motor_handle.join()` hangs. The rest pattern would be written exactly
once per line group on the `break` path (third conjunct), but that path is unreachable
from Idle without an external wakeup. -/
theorem C2_shutdown_while_idle_parked_hangs :
    motorLoopStep (shutdown idleParked) = shutdown idleParked ∧
    (shutdown idleParked).phase ≠ MotorPhase.exited ∧
    passActions ChannelStatus.active true false false false 0 0 =
      [MotorAction.write1 ALL_OFF, MotorAction.write3 ALL_OFF] := by
  refine ⟨rfl, by decide, rfl⟩

/-- C3: advancing backward from phase index `i < 8` yields `(i + 7) % 8`, which is again
below 8; in particular index 0 wraps to 7 (the usize subtraction wraps and the modulo
lands on 7, no negative or out-of-range index arises). -/
theorem C3_backward_advance_wraps (i : Nat) (h : i < 8) :
    (run_motor i false).1 = (i + 7) % 8 ∧ (run_motor i false).1 < 8 ∧
    (run_motor 0 false).1 = 7 := by
  interval_cases i <;> decide

/-- Witness for C3 at the flagged edge case `i = 0`. -/
theorem C3_backward_advance_wraps_witness :
    (run_motor 0 false).1 = (0 + 7) % 8 ∧ (run_motor 0 false).1 < 8 ∧
    (run_motor 0 false).1 = 7 :=
  C3_backward_advance_wraps 0 (by decide)

/-- C4: a switch-driven burst's loop condition is false exactly when the timeout has
elapsed AND the switch is no longer engaged; while the switch remains engaged the
condition stays true, so the burst never stops purely on timeout. -/
theorem C4_switch_burst_stop_condition (elapsed timeoutNow : Nat) (engaged : Bool) :
    (switch_loop_cond elapsed timeoutNow engaged = false ↔
      timeoutNow ≤ elapsed ∧ engaged = false) ∧
    (engaged = true → switch_loop_cond elapsed timeoutNow engaged = true) := by
  constructor
  · simp [switch_loop_cond, Bool.or_eq_false_iff, decide_eq_false_iff_not, Nat.not_lt]
  · intro h
    simp [switch_loop_cond, h]

/-- Witness for C4: with the timeout long elapsed but the switch still engaged, the loop
continues. -/
theorem C4_switch_burst_stop_condition_witness :
    switch_loop_cond 700 500 true = true :=
  (C4_switch_burst_stop_condition 700 500 true).2 rfl

/-- C5: a command-driven burst that finishes its stepping loop with the channel open
never executes its exit sequence. The pass ends `deadlocked`: after the burst-start
publish and the stepping writes, the thread blocks forever in the same-thread re-lock
of `on_lock` at lib.rs line 204 (the guard `_on_guard` from line 171 is still alive),
so the running flag is never set to false, no notification and no burst-end snapshot
(switch=false, on=false, direction) are ever issued, and the engine never returns to
Idle — evaluated here at a concrete command-driven pass of two stepping iterations. -/
theorem C5_command_exit_deadlocks :
    motorPass ChannelStatus.active false true false false 2 0 =
      Except.ok (PassResult.deadlocked
        [MotorAction.publish { switch := false, «on» := true, direction := false },
         MotorAction.write1 (0, 0), MotorAction.write3 (1, 0),
         MotorAction.write1 (1, 0), MotorAction.write3 (1, 0)] 6) ∧
    MotorAction.setRunning false ∉
      passActions ChannelStatus.active false true false false 2 0 ∧
    MotorAction.notifyOne ∉ passActions ChannelStatus.active false true false false 2 0 ∧
    MotorAction.publish { switch := false, «on» := false, direction := false } ∉
      passActions ChannelStatus.active false true false false 2 0 := by
  refine ⟨rfl, by decide, by decide, by decide⟩

/-- C6 counterexample: a burst started under timeout 500 whose loop check happens at
elapsed 600 would stop; after `set_parameters` raises the shared timeout to 1000
mid-burst, the same check continues — the in-progress burst is lengthened, refuting the
claim that a mid-burst parameter change leaves the already-running burst unaffected. -/
theorem C6_counterexample_mid_burst_timeout_change :
    command_loop_cond 600 (get_parameters (set_parameters new { timeout := 500 })).timeout
        = false ∧
    command_loop_cond 600
        (get_parameters (set_parameters (set_parameters new { timeout := 500 })
          { timeout := 1000 })).timeout = true := by
  decide

/-- C6 (amended): the command-driven loop re-reads the shared timeout mutex at every
evaluation of its condition, so there is no precomputed per-burst deadline: after a
mid-burst `set_parameters` the very next check of the in-progress burst is governed by
the new value (and before the change, by the old value). -/
theorem C6_timeout_takes_effect_at_next_check (s : ComponentState) (oldP newP : Params)
    (elapsed : Nat) :
    command_loop_cond elapsed (get_parameters (set_parameters s oldP)).timeout
        = decide (elapsed < oldP.timeout) ∧
    command_loop_cond elapsed
        (get_parameters (set_parameters (set_parameters s oldP) newP)).timeout
        = decide (elapsed < newP.timeout) :=
  ⟨rfl, rfl⟩

/-- C7 counterexample: with the state channel closed, the motor thread's pass panics at
the burst-start publish (`Except.error ()`) and performs no coil write at all — the
stepping loop is killed, refuting the claim that a channel failure does not stop motion. -/
theorem C7_counterexample_channel_failure_stops_motion :
    motorPass ChannelStatus.closed false true true false 3 0 = Except.error () ∧
    passActions ChannelStatus.closed false true true false 3 0 = [] :=
  ⟨rfl, rfl⟩

/-- C7 (amended): a state-publish failure is fatal to the execution context performing
the send; for the burst publishes that context is the stepping thread itself, so for
either burst kind a closed channel panics the motor thread, which then performs no coil
writes — motion stops. -/
theorem C7_publish_failure_fatal_to_stepping_thread (g sw d : Bool) (n step : Nat) :
    motorPass ChannelStatus.closed false g sw d n step = Except.error () ∧
    passActions ChannelStatus.closed false g sw d n step = [] := by
  cases sw <;> exact ⟨rfl, rfl⟩

/-- C8: for every combination of switch, on and direction, `get_state` read immediately
after `change_state` (with no intervening burst or switch activity) returns exactly the
values that were applied. -/
theorem C8_change_state_then_get_state (s : ComponentState) (m : StateMsg) :
    get_state (change_state s m).1 = m := by
  cases m with
  | mk sw o d => cases o <;> rfl

/-- C9: advancing once forward and then once backward returns to the starting phase
index, for every index in [0,8). -/
theorem C9_forward_backward_roundtrip (i : Nat) (h : i < 8) :
    (run_motor (run_motor i true).1 false).1 = i := by
  interval_cases i <;> decide

/-- Witness for C9 at `i = 5`. -/
theorem C9_forward_backward_roundtrip_witness :
    (run_motor (run_motor 5 true).1 false).1 = 5 :=
  C9_forward_backward_roundtrip 5 (by decide)

/-- C10: a freshly constructed component reports switch=true, on=false, direction=false
and timeout=500, and because switch defaults to true the branch taken on the engine's
first wake is the switch-driven one. -/
theorem C10_fresh_component_defaults :
    get_state new = { switch := true, «on» := false, direction := false } ∧
    get_parameters new = { timeout := 500 } ∧
    burstKind new.switch = BurstKind.switchDriven :=
  ⟨rfl, rfl, rfl⟩

end StepperMotor
